import Mathlib

/-!
Verification of the pyopus binding/control layer.

The Python modules under src/pyopus are shallowly embedded here: pure
fragments become Lean functions, exceptions become `Except`, and the native
codec capability (the generated binding module and the raw numeric constants
it provides, which are not part of the Python sources) is passed in as
explicit oracle arguments, or modelled from the spec where noted.
-/

namespace PyOpus

/-- Python exception values raised by the embedded code paths. `opusError`
carries the errno argument of OpusError; `OpusError(None)` is modelled by
`opusError Option.none` (in CPython the constructor would additionally fail
inside the error-string lookup, but an exception propagates either way). -/
inductive PyExc where
  | valueError (msg : String)
  | attributeError (member : String)
  | opusError (errno : Option Int)
  deriving Repr, DecidableEq

/-- Python runtime values flowing through the embedded fragments: None,
plain integers, and enum members (an object whose value attribute is an
integer). -/
inductive PyVal where
  | pyNone
  | pyInt (n : Int)
  | enumMember (n : Int)
  deriving Repr, DecidableEq

/-- Name of the value attribute of Python enum members. -/
def valueAttrName : String := "value"

/-- Python attribute access x.value: defined on enum members; on a plain int
or on None it raises AttributeError, as in CPython. -/
def PyVal.valueAttr : PyVal → Except PyExc Int
  | .enumMember n => .ok n
  | _ => .error (.attributeError valueAttrName)

/-- Python inequality test result != OK used in ctl._set_int, where result can
be None (the return value of the llinterface ctl wrappers). None != int is
always true in Python. -/
def pyNeInt : PyVal → Int → Bool
  | .pyNone, _ => true
  | .pyInt m, n => m ≠ n
  | .enumMember _, _ => true

/-- The errno argument OpusError receives in ctl._set_int: the raised value is
`OpusError(result)`; when result is None the errno is None. -/
def pyErrno : PyVal → Option Int
  | .pyInt n => some n
  | _ => none

/-! ## Native numeric codes

Modelled from the spec (section 6): all numeric codes (error kinds, control
request codes, application codes) originate from the external native
capability; the low-level constants the Python sources reference
(`constants.SET_COMPLEXITY_REQUEST`, `constants.APPLICATION_VOIP`, ...) and
the generated binding module are not under src/. The values below are the
libopus wire values, matching the literals kept inline in encoder.py. -/

def OK : Int := 0
def OPUS_BAD_ARG : Int := -1
def OPUS_INVALID_PACKET : Int := -4

def APPLICATION_VOIP : Int := 2048
def APPLICATION_AUDIO : Int := 2049
def APPLICATION_RESTRICTED_LOWDELAY : Int := 2051

def SET_APPLICATION_REQUEST : Int := 4000
def GET_APPLICATION_REQUEST : Int := 4001
def SET_BITRATE_REQUEST : Int := 4002
def GET_BITRATE_REQUEST : Int := 4003
def SET_MAX_BANDWIDTH_REQUEST : Int := 4004
def GET_MAX_BANDWIDTH_REQUEST : Int := 4005
def SET_VBR_REQUEST : Int := 4006
def GET_VBR_REQUEST : Int := 4007
def SET_BANDWIDTH_REQUEST : Int := 4008
def GET_BANDWIDTH_REQUEST : Int := 4009
def SET_COMPLEXITY_REQUEST : Int := 4010
def GET_COMPLEXITY_REQUEST : Int := 4011
def SET_INBAND_FEC_REQUEST : Int := 4012
def GET_INBAND_FEC_REQUEST : Int := 4013
def SET_PACKET_LOSS_PERC_REQUEST : Int := 4014
def GET_PACKET_LOSS_PERC_REQUEST : Int := 4015
def SET_DTX_REQUEST : Int := 4016
def GET_DTX_REQUEST : Int := 4017
def SET_VBR_CONSTRAINT_REQUEST : Int := 4020
def GET_VBR_CONSTRAINT_REQUEST : Int := 4021
def SET_FORCE_CHANNELS_REQUEST : Int := 4022
def GET_FORCE_CHANNELS_REQUEST : Int := 4023
def SET_SIGNAL_REQUEST : Int := 4024
def GET_SIGNAL_REQUEST : Int := 4025
def GET_LOOKAHEAD_REQUEST : Int := 4027
def RESET_STATE : Int := 4028
def GET_SAMPLE_RATE_REQUEST : Int := 4029
def GET_FINAL_RANGE_REQUEST : Int := 4031
def GET_PITCH_REQUEST : Int := 4033
def SET_GAIN_REQUEST : Int := 4034
def SET_LSB_DEPTH_REQUEST : Int := 4036
def GET_LSB_DEPTH_REQUEST : Int := 4037
def GET_LAST_PACKET_DURATION_REQUEST : Int := 4039
def SET_EXPERT_FRAME_DURATION_REQUEST : Int := 4040
def GET_EXPERT_FRAME_DURATION_REQUEST : Int := 4041
def SET_PREDICTION_DISABLED_REQUEST : Int := 4042
def GET_PREDICTION_DISABLED_REQUEST : Int := 4043
def GET_GAIN_REQUEST : Int := 4045

/-! ## utils.py -/

def SUPPORTED_FREQS : List Int := [8000, 12000, 16000, 24000, 48000]
def SUPPORTED_CHANNELS : List Int := [1, 2]
def SUPPORTED_APPLICATIONS : List Int :=
  [APPLICATION_VOIP, APPLICATION_AUDIO, APPLICATION_RESTRICTED_LOWDELAY]

def freqErrMsg : String :=
  "Unsupported frequency; please use one of [8000, 12000, 16000, 24000, 48000]"
def channelsErrMsg : String :=
  "Unsupported number of channels; only 1 or 2 are supported"
def applicationErrMsg : String :=
  "Unsupported coding mode; please consult Opus docs for the proper constant to use"

/-- utils.check_freq: raises ValueError naming the frequency field when the
frequency is outside the supported set. -/
def check_freq (frequency : Int) : Except PyExc Unit :=
  if SUPPORTED_FREQS.contains frequency then .ok ()
  else .error (.valueError freqErrMsg)

/-- utils.check_channels: raises ValueError when the channel count is not 1
or 2. -/
def check_channels (channels : Int) : Except PyExc Unit :=
  if SUPPORTED_CHANNELS.contains channels then .ok ()
  else .error (.valueError channelsErrMsg)

/-- utils.check_application: raises ValueError when the application coding
mode is not one of the three supported codes. -/
def check_application (application : Int) : Except PyExc Unit :=
  if SUPPORTED_APPLICATIONS.contains application then .ok ()
  else .error (.valueError applicationErrMsg)

/-! ## llinterface.py control wrappers

The native calls `C.opus_encoder_ctl` / `C.opus_decoder_ctl` are the external
capability; the status they return (and, for get-shaped calls, the value they
write into the scratch cell) is supplied by an oracle argument. -/

/-- llinterface.encoder_ctl in its set-call shape (llinterface.py 263-278):
error = C.opus_encoder_ctl(st, request, value); a non-OK status raises
OpusError(error); otherwise the function falls off the end, returning
Python None. -/
def llEncoderCtlSet (nativeCtl : Int → Int → Int) (request value : Int) :
    Except PyExc PyVal :=
  let error := nativeCtl request value
  if error ≠ OK then .error (.opusError (some error)) else .ok PyVal.pyNone

/-- llinterface.decoder_ctl in its set-call shape (llinterface.py 402-417):
same status handling as the encoder wrapper. -/
def llDecoderCtlSet (nativeCtl : Int → Int → Int) (request value : Int) :
    Except PyExc PyVal :=
  let error := nativeCtl request value
  if error ≠ OK then .error (.opusError (some error)) else .ok PyVal.pyNone

/-- llinterface.encoder_ctl in its get-call shape: the native call receives
the address of the one-element scratch cell; the oracle yields the returned
status and the value written into the cell. A non-OK status raises
OpusError; on success the wrapper returns Python None and the cell holds the
value. -/
def llEncoderCtlGet (nativeCtl : Int → Int × Int) (request : Int) :
    Except PyExc (PyVal × Int) :=
  let r := nativeCtl request
  if r.1 ≠ OK then .error (.opusError (some r.1)) else .ok (PyVal.pyNone, r.2)

/-- llinterface.decoder_ctl in its get-call shape, as for the encoder. -/
def llDecoderCtlGet (nativeCtl : Int → Int × Int) (request : Int) :
    Except PyExc (PyVal × Int) :=
  let r := nativeCtl request
  if r.1 ≠ OK then .error (.opusError (some r.1)) else .ok (PyVal.pyNone, r.2)

/-! ## ctl.py -/

/-- The members of ctl.EncoderControlRequest (ctl.py 107-142), in source
order, paired with their native request codes. Note the list has no
GET_FINAL_RANGE, GET_PITCH or GET_BANDWIDTH member. -/
def EncoderControlRequestMembers : List (String × Int) :=
  [("SET_COMPLEXITY", SET_COMPLEXITY_REQUEST),
   ("GET_COMPLEXITY", GET_COMPLEXITY_REQUEST),
   ("SET_BITRATE", SET_BITRATE_REQUEST),
   ("GET_BITRATE", GET_BITRATE_REQUEST),
   ("SET_VBR", SET_VBR_REQUEST),
   ("GET_VBR", GET_VBR_REQUEST),
   ("SET_VBR_CONSTRAINT", SET_VBR_CONSTRAINT_REQUEST),
   ("GET_VBR_CONSTRAINT", GET_VBR_CONSTRAINT_REQUEST),
   ("SET_FORCE_CHANNELS", SET_FORCE_CHANNELS_REQUEST),
   ("GET_FORCE_CHANNELS", GET_FORCE_CHANNELS_REQUEST),
   ("SET_MAX_BANDWIDTH", SET_MAX_BANDWIDTH_REQUEST),
   ("GET_MAX_BANDWIDTH", GET_MAX_BANDWIDTH_REQUEST),
   ("SET_BANDWIDTH", SET_BANDWIDTH_REQUEST),
   ("SET_SIGNAL", SET_SIGNAL_REQUEST),
   ("GET_SIGNAL", GET_SIGNAL_REQUEST),
   ("SET_APPLICATION", SET_APPLICATION_REQUEST),
   ("GET_APPLICATION", GET_APPLICATION_REQUEST),
   ("GET_SAMPLE_RATE", GET_SAMPLE_RATE_REQUEST),
   ("GET_LOOKAHEAD", GET_LOOKAHEAD_REQUEST),
   ("SET_INBAND_FEC", SET_INBAND_FEC_REQUEST),
   ("GET_INBAND_FEC", GET_INBAND_FEC_REQUEST),
   ("SET_PACKET_LOSS_PERC", SET_PACKET_LOSS_PERC_REQUEST),
   ("GET_PACKET_LOSS_PERC", GET_PACKET_LOSS_PERC_REQUEST),
   ("SET_DTX", SET_DTX_REQUEST),
   ("GET_DTX", GET_DTX_REQUEST),
   ("SET_LSB_DEPTH", SET_LSB_DEPTH_REQUEST),
   ("GET_LSB_DEPTH", GET_LSB_DEPTH_REQUEST),
   ("GET_LAST_PACKET_DURATION", GET_LAST_PACKET_DURATION_REQUEST),
   ("SET_EXPERT_FRAME_DURATION", SET_EXPERT_FRAME_DURATION_REQUEST),
   ("GET_EXPERT_FRAME_DURATION", GET_EXPERT_FRAME_DURATION_REQUEST),
   ("SET_PREDICTION_DISABLED", SET_PREDICTION_DISABLED_REQUEST),
   ("GET_PREDICTION_DISABLED", GET_PREDICTION_DISABLED_REQUEST),
   ("RESET_STATE", RESET_STATE)]

/-- The members of ctl.DecoderControlRequest (ctl.py 145-153). -/
def DecoderControlRequestMembers : List (String × Int) :=
  [("RESET_STATE", RESET_STATE),
   ("GET_FINAL_RANGE", GET_FINAL_RANGE_REQUEST),
   ("GET_PITCH", GET_PITCH_REQUEST),
   ("GET_BANDWIDTH", GET_BANDWIDTH_REQUEST),
   ("SET_GAIN", SET_GAIN_REQUEST),
   ("GET_GAIN", GET_GAIN_REQUEST)]

/-- Python attribute access EncoderControlRequest.NAME (and likewise for the
decoder enum): yields the member value, or raises AttributeError when the
enum class has no member of that name. -/
def enumMemberLookup (members : List (String × Int)) (name : String) :
    Except PyExc Int :=
  match members.find? (fun p => p.1 == name) with
  | some p => .ok p.2
  | none => .error (.attributeError name)

/-- ctl._set_int fn st request value (ctl.py 189-201): result =
fn(st, request.value, cast(value)); if result != OK then OpusError(result) is
raised. fn is one of the llinterface ctl wrappers, which returns None, so
the comparison against OK is made on None. -/
def set_int (fn : Int → Int → Except PyExc PyVal) (request value : Int) :
    Except PyExc PyVal :=
  match fn request value with
  | .error e => .error e
  | .ok result =>
      if pyNeInt result OK then .error (.opusError (pyErrno result))
      else .ok PyVal.pyNone

/-- ctl._get_int fn st request (ctl.py 204-218): allocates a one-element int
cell, calls fn(st, request.value, cell), and returns the cell content. Any
exception fn raises propagates; the return status of fn is not inspected
here. -/
def get_int (fn : Int → Except PyExc (PyVal × Int)) (request : Int) :
    Except PyExc Int :=
  match fn request with
  | .error e => .error e
  | .ok r => .ok r.2

/-- ctl._get_uint (ctl.py 221-235): as _get_int with an unsigned cell. -/
def get_uint (fn : Int → Except PyExc (PyVal × Int)) (request : Int) :
    Except PyExc Int :=
  match fn request with
  | .error e => .error e
  | .ok r => .ok r.2

/-- ctl.encoder_set_complexity (ctl.py 269-277). -/
def encoder_set_complexity (nativeCtl : Int → Int → Int) (x : Int) :
    Except PyExc PyVal := do
  let req ← enumMemberLookup EncoderControlRequestMembers ("SET_COMPLEXITY")
  set_int (llEncoderCtlSet nativeCtl) req x

/-- ctl.encoder_get_complexity (ctl.py 280-290). -/
def encoder_get_complexity (nativeCtl : Int → Int × Int) :
    Except PyExc Int := do
  let req ← enumMemberLookup EncoderControlRequestMembers ("GET_COMPLEXITY")
  get_int (llEncoderCtlGet nativeCtl) req

/-- ctl.encoder_set_bitrate (ctl.py 293-301). -/
def encoder_set_bitrate (nativeCtl : Int → Int → Int) (x : Int) :
    Except PyExc PyVal := do
  let req ← enumMemberLookup EncoderControlRequestMembers ("SET_BITRATE")
  set_int (llEncoderCtlSet nativeCtl) req x

/-- ctl.decoder_set_gain (ctl.py 755-763). -/
def decoder_set_gain (nativeCtl : Int → Int → Int) (x : Int) :
    Except PyExc PyVal := do
  let req ← enumMemberLookup DecoderControlRequestMembers ("SET_GAIN")
  set_int (llDecoderCtlSet nativeCtl) req x

/-- ctl.encoder_get_final_range (ctl.py 676-686): references the member
GET_FINAL_RANGE of ctl.EncoderControlRequest. -/
def encoder_get_final_range (nativeCtl : Int → Int × Int) :
    Except PyExc Int := do
  let req ← enumMemberLookup EncoderControlRequestMembers ("GET_FINAL_RANGE")
  get_uint (llEncoderCtlGet nativeCtl) req

/-- ctl.encoder_get_pitch (ctl.py 702-712): references the member GET_PITCH
of ctl.EncoderControlRequest. -/
def encoder_get_pitch (nativeCtl : Int → Int × Int) :
    Except PyExc Int := do
  let req ← enumMemberLookup EncoderControlRequestMembers ("GET_PITCH")
  get_int (llEncoderCtlGet nativeCtl) req

/-- ctl.encoder_get_bandwidth (ctl.py 728-738): references the member
GET_BANDWIDTH of ctl.EncoderControlRequest. -/
def encoder_get_bandwidth (nativeCtl : Int → Int × Int) :
    Except PyExc Int := do
  let req ← enumMemberLookup EncoderControlRequestMembers ("GET_BANDWIDTH")
  get_int (llEncoderCtlGet nativeCtl) req

/-! ## Native control store for the round-trip claim

Modelled from the spec (sections 6 and 8): the native library (not under
src/) stores the complexity value on SET_COMPLEXITY when it is inside the
documented range 0..10 and answers OK, rejects out-of-range values with
BAD_ARG, and writes the stored value on GET_COMPLEXITY. -/

structure NativeComplexity where
  stored : Int
  deriving Repr, DecidableEq

/-- Modelled from the spec: native set-shaped ctl call on the complexity
store; returns the successor store and the status. -/
def nativeComplexityCtlSet (st : NativeComplexity) (request value : Int) :
    NativeComplexity × Int :=
  if request == SET_COMPLEXITY_REQUEST then
    if 0 ≤ value ∧ value ≤ 10 then (⟨value⟩, OK) else (st, OPUS_BAD_ARG)
  else (st, OPUS_BAD_ARG)

/-- Modelled from the spec: native get-shaped ctl call on the complexity
store; returns the status and the value written into the scratch cell. -/
def nativeComplexityCtlGet (st : NativeComplexity) (request : Int) :
    Int × Int :=
  if request == GET_COMPLEXITY_REQUEST then (OK, st.stored)
  else (OPUS_BAD_ARG, 0)

/-- The program fragment complexity = x followed by reading complexity on the
same encoder (the facade properties delegate to ctl.encoder_set_complexity
and ctl.encoder_get_complexity). The native store after the set call is the
one the get call observes; if the set raises, Python control flow never
reaches the get. -/
def complexity_set_then_get (st : NativeComplexity) (x : Int) :
    Except PyExc Int := do
  let _ ← encoder_set_complexity (fun r v => (nativeComplexityCtlSet st r v).2) x
  encoder_get_complexity
    (fun r => nativeComplexityCtlGet (nativeComplexityCtlSet st SET_COMPLEXITY_REQUEST x).1 r)

/-! ## Event traces for the locking discipline

Each facade operation is embedded as a function returning its Python result
together with the sequence of lock and scratch-buffer events it performs.
The with-statement semantics of Python releases the lock on the error exit
path as well, before the exception continues to propagate. -/

inductive Ev where
  | acquire
  | release
  | scratchWrite
  | scratchRead
  deriving Repr, DecidableEq

/-! ## encoder.py facade -/

def PAYLOAD_BUFFER_SIZE : Nat := 4096

structure EncoderModel where
  freq : Int
  channels : Int
  modeValue : Int
  deriving Repr, DecidableEq

/-- llinterface.encoder_init (llinterface.py 172-188): evaluates
application.value before the native call (AttributeError when the argument
is not an enum member), then raises OpusError on a non-OK native status. -/
def llEncoderInit (nativeInit : Int → Int → Int → Int)
    (Fs channels : Int) (application : PyVal) : Except PyExc Unit := do
  let a ← application.valueAttr
  let error := nativeInit Fs channels a
  if error ≠ OK then .error (.opusError (some error)) else .ok ()

/-- BaseOpusEncoder constructor (encoder.py 44-77): the three validation
checks run first, state allocation (the native size query and the buffer
allocation of ManagedState, base.py 27-36) happens only afterwards, and
_init_state (encoder.py 88-97) passes self._mode.value, already a plain
int, to llinterface.encoder_init, which evaluates .value on it again. -/
def encoder_construct (nativeSize : Int → Int)
    (nativeInit : Int → Int → Int → Int)
    (frequency channels : Int) (application : PyVal) :
    Except PyExc EncoderModel := do
  check_freq frequency
  check_channels channels
  let av ← application.valueAttr
  check_application av
  let _stateSize := nativeSize channels
  let mv ← application.valueAttr
  llEncoderInit nativeInit frequency channels (PyVal.pyInt mv)
  return ⟨frequency, channels, av⟩

/-- BaseOpusEncoder._do_encode (encoder.py 131-150): under the buffer lock,
the bound native encode primitive writes the payload scratch buffer
(llinterface.encode raises OpusError on a negative result, llinterface.py
191-219), and the written byte range is returned. nativeEncode gives the
primitive result for the frame size passed; buf is the payload scratch
content after the native call. -/
def do_encode (nativeEncode : Nat → Int) (buf : List Int) (frame_size : Nat) :
    Except PyExc (List Int) × List Ev :=
  let r := nativeEncode frame_size
  if r < 0 then
    (.error (.opusError (some r)), [.acquire, .scratchWrite, .release])
  else
    (.ok (buf.take r.toNat), [.acquire, .scratchWrite, .scratchRead, .release])

def stereoErrMsg : String := "PCM data length is not even for stereo input"

/-- BaseOpusEncoder._stereo_encode (encoder.py 99-117): frame_size, rem =
divmod(len(pcm), 2); an odd length raises ValueError before the lock is
taken and before any native call. -/
def stereo_encode (nativeEncode : Nat → Int) (buf : List Int)
    (pcm : List Int) : Except PyExc (List Int) × List Ev :=
  let frame_size := pcm.length / 2
  let rem := pcm.length % 2
  if rem ≠ 0 then (.error (.valueError stereoErrMsg), [])
  else do_encode nativeEncode buf frame_size

/-- BaseOpusEncoder._mono_encode (encoder.py 119-129): the raw input length
is the frame size. -/
def mono_encode (nativeEncode : Nat → Int) (buf : List Int)
    (pcm : List Int) : Except PyExc (List Int) × List Ev :=
  do_encode nativeEncode buf pcm.length

/-- BaseOpusEncoder.final_range property (encoder.py 160-168). -/
def encoderFinalRangeProp (nativeCtl : Int → Int × Int) : Except PyExc Int :=
  encoder_get_final_range nativeCtl

/-- BaseOpusEncoder.pitch property (encoder.py 170-178). -/
def encoderPitchProp (nativeCtl : Int → Int × Int) : Except PyExc Int :=
  encoder_get_pitch nativeCtl

/-- BaseOpusEncoder.bandwidth getter property (encoder.py 180-188). -/
def encoderBandwidthProp (nativeCtl : Int → Int × Int) : Except PyExc Int :=
  encoder_get_bandwidth nativeCtl

/-! ## decoder.py facade -/

def PCM_BUFFER_SAMPLES : Int := 2880

/-- decoder.py line 104: self._min_frame_samples = int(MIN_FRAME_DURATION *
frequency) with MIN_FRAME_DURATION = 0.0025. For every frequency in the
supported set the double-precision product rounds to the integer
frequency / 400 and the int() truncation yields exactly it, so the embedding
computes the integer division directly. -/
def min_frame_samples (frequency : Int) : Int := frequency / 400

structure DecoderModel where
  freq : Int
  channels : Int
  deriving Repr, DecidableEq

/-- BaseOpusDecoder.decode (decoder.py 128-150): under the buffer lock, the
bound native decode primitive is called with frame size PCM_BUFFER_SAMPLES
(llinterface.decode raises OpusError on a negative result, llinterface.py
336-366) and the slice pcm[0 : num_samples * channels] is returned.
nativeResult is the value the native primitive returns; pcmAfter the PCM
scratch content after the call. -/
def decode (dec : DecoderModel) (nativeResult : Int) (pcmAfter : List Int) :
    Except PyExc (List Int) × List Ev :=
  if nativeResult < 0 then
    (.error (.opusError (some nativeResult)), [.acquire, .scratchWrite, .release])
  else
    (.ok (pcmAfter.take (nativeResult * dec.channels).toNat),
     [.acquire, .scratchWrite, .scratchRead, .release])

def plcErrMsg : String :=
  "Duration of missing audio (or the frame length) must be given in the case of PLC or FEC; please specify the duration in numbers of 2.5ms frames in these cases."

/-- BaseOpusDecoder.decode_plc_fec (decoder.py 152-196). The Python
frame_duration parameter is a float; the embedding takes an integer count,
on which int(frame_duration * min_frame_samples) is exact. nativeResult
gives the value the native decode primitive returns for a frame size and
fec flag; pcmAfter is the PCM scratch content after the call. The returned
slice is pcm[0 : num_samples], with no channel-count factor. -/
def decode_plc_fec (dec : DecoderModel) (nativeResult : Int → Bool → Int)
    (pcmAfter : List Int) (data : Option (List Int))
    (frame_duration : Option Int) (decode_fec : Bool) :
    Except PyExc (List Int) × List Ev :=
  if data.isNone || decode_fec then
    match frame_duration with
    | none => (.error (.valueError plcErrMsg), [])
    | some d =>
        let frame_size := d * min_frame_samples dec.freq
        let r := nativeResult frame_size decode_fec
        if r < 0 then
          (.error (.opusError (some r)), [.acquire, .scratchWrite, .release])
        else
          (.ok (pcmAfter.take r.toNat),
           [.acquire, .scratchWrite, .scratchRead, .release])
  else
    let r := nativeResult PCM_BUFFER_SAMPLES decode_fec
    if r < 0 then
      (.error (.opusError (some r)), [.acquire, .scratchWrite, .release])
    else
      (.ok (pcmAfter.take r.toNat),
       [.acquire, .scratchWrite, .scratchRead, .release])

/-! ## Lock discipline of traces and mutual exclusion -/

/-- Trace well-formedness with respect to the per-instance lock: scanning
with the held flag, scratch-buffer events may only occur while the lock is
held, acquire requires the lock free (the threading.Lock of the instances is
not reentrant), release requires it held, and the trace ends with the lock
released. -/
def wellLockedAux : Bool → List Ev → Bool
  | held, [] => !held
  | false, .acquire :: t => wellLockedAux true t
  | false, .release :: _ => false
  | false, .scratchWrite :: _ => false
  | false, .scratchRead :: _ => false
  | true, .acquire :: _ => false
  | true, .release :: t => wellLockedAux false t
  | true, .scratchWrite :: t => wellLockedAux true t
  | true, .scratchRead :: t => wellLockedAux true t

def wellLocked (t : List Ev) : Bool := wellLockedAux false t

/-- All interleavings of two event sequences, the Bool marking which of the
two calls each event belongs to. Recursion on explicit fuel so the
definition reduces in the kernel; the wrapper supplies enough fuel for
every event. -/
def interleavingsAux {α : Type} : Nat → List α → List α → List (List (Bool × α))
  | _, [], ys => [ys.map (fun y => (false, y))]
  | _, x :: xs, [] => [(x :: xs).map (fun x => (true, x))]
  | 0, _ :: _, _ :: _ => []
  | fuel + 1, x :: xs, y :: ys =>
      (interleavingsAux fuel xs (y :: ys)).map (fun s => (true, x) :: s) ++
      (interleavingsAux fuel (x :: xs) ys).map (fun s => (false, y) :: s)

def interleavings {α : Type} (xs ys : List α) : List (List (Bool × α)) :=
  interleavingsAux (xs.length + ys.length) xs ys

/-- Whether a schedule of two calls respects the mutual-exclusion semantics
of the shared instance lock: at most one call holds the lock, acquire blocks
while the other call holds it, and only the holder releases. -/
def mutexOkAux : Option Bool → List (Bool × Ev) → Bool
  | _, [] => true
  | none, (t, .acquire) :: rest => mutexOkAux (some t) rest
  | some _, (_, .acquire) :: _ => false
  | some u, (t, .release) :: rest => (t == u) && mutexOkAux none rest
  | none, (_, .release) :: _ => false
  | h, (_, .scratchWrite) :: rest => mutexOkAux h rest
  | h, (_, .scratchRead) :: rest => mutexOkAux h rest

def mutexOk (s : List (Bool × Ev)) : Bool := mutexOkAux none s

/-- The owners of the scratch-buffer events of a schedule, in order. -/
def scratchOwners (s : List (Bool × Ev)) : List Bool :=
  s.filterMap (fun p =>
    match p.2 with
    | .scratchWrite => some p.1
    | .scratchRead => some p.1
    | _ => none)

/-- Number of adjacent owner changes in a list of owners. -/
def alternations : List Bool → Nat
  | [] => 0
  | [_] => 0
  | a :: b :: t => (if a ≠ b then 1 else 0) + alternations (b :: t)

/-- A schedule keeps the two calls' scratch accesses apart when the owner
sequence changes at most once: one call's buffer accesses never interleave
with the other's. -/
def noConcurrentScratch (s : List (Bool × Ev)) : Bool :=
  alternations (scratchOwners s) ≤ 1

/-- The trace shapes the three facade operations produce: the pre-lock
validation exit of decode_plc_fec, the native-error exit, and the normal
exit. -/
def opTraceShapes : List (List Ev) :=
  [[],
   [.acquire, .scratchWrite, .release],
   [.acquire, .scratchWrite, .scratchRead, .release]]

/-! ## Accessor availability tables for the encoder facade -/

structure CtlBinding where
  hasGetter : Bool
  hasSetter : Bool
  getterMember : Option String
  setterMember : Option String
  deriving Repr, DecidableEq

/-- The parameter accessors defined on BaseOpusEncoder (encoder.py 160-510):
for each property name, whether a getter and a setter are defined, and the
ctl.EncoderControlRequest member name referenced by the single ctl function
each direction calls. -/
def encoderFacadeAccessor : String → Option CtlBinding
  | "final_range" => some ⟨true, false, some ("GET_FINAL_RANGE"), none⟩
  | "pitch" => some ⟨true, false, some ("GET_PITCH"), none⟩
  | "bandwidth" => some ⟨true, true, some ("GET_BANDWIDTH"), some ("SET_BANDWIDTH")⟩
  | "complexity" => some ⟨true, true, some ("GET_COMPLEXITY"), some ("SET_COMPLEXITY")⟩
  | "bitrate" => some ⟨true, true, some ("GET_BITRATE"), some ("SET_BITRATE")⟩
  | "vbr" => some ⟨true, true, some ("GET_VBR"), some ("SET_VBR")⟩
  | "vbr_constraint" =>
      some ⟨true, true, some ("GET_VBR_CONSTRAINT"), some ("SET_VBR_CONSTRAINT")⟩
  | "force_channels" =>
      some ⟨true, true, some ("GET_FORCE_CHANNELS"), some ("SET_FORCE_CHANNELS")⟩
  | "max_bandwidth" =>
      some ⟨true, true, some ("GET_MAX_BANDWIDTH"), some ("SET_MAX_BANDWIDTH")⟩
  | "signal" => some ⟨true, true, some ("GET_SIGNAL"), some ("SET_SIGNAL")⟩
  | "application" => some ⟨true, true, some ("GET_APPLICATION"), some ("SET_APPLICATION")⟩
  | "sample_rate" => some ⟨true, false, some ("GET_SAMPLE_RATE"), none⟩
  | "lookahead" => some ⟨true, false, some ("GET_LOOKAHEAD"), none⟩
  | "inband_fec" => some ⟨true, true, some ("GET_INBAND_FEC"), some ("SET_INBAND_FEC")⟩
  | "packet_loss_perc" =>
      some ⟨true, true, some ("GET_PACKET_LOSS_PERC"), some ("SET_PACKET_LOSS_PERC")⟩
  | "dtx" => some ⟨true, true, some ("GET_DTX"), some ("SET_DTX")⟩
  | "lsb_depth" => some ⟨true, true, some ("GET_LSB_DEPTH"), some ("SET_LSB_DEPTH")⟩
  | "last_packet_duration" =>
      some ⟨true, false, some ("GET_LAST_PACKET_DURATION"), none⟩
  | "expert_frame_duration" =>
      some ⟨true, true, some ("GET_EXPERT_FRAME_DURATION"), some ("SET_EXPERT_FRAME_DURATION")⟩
  | "prediction_disabled" =>
      some ⟨true, true, some ("GET_PREDICTION_DISABLED"), some ("SET_PREDICTION_DISABLED")⟩
  | _ => none

/-- The get/set availability the specification asserts for the encoder
parameter accessors, following the wording of the claim: bandwidth set-only;
sample_rate, lookahead and last_packet_duration read-only; every other
listed field with both directions. The pair is (getter, setter). -/
def specClaimedAvailability : String → Option (Bool × Bool)
  | "bandwidth" => some (false, true)
  | "sample_rate" => some (true, false)
  | "lookahead" => some (true, false)
  | "last_packet_duration" => some (true, false)
  | "bitrate" => some (true, true)
  | "complexity" => some (true, true)
  | "vbr" => some (true, true)
  | "vbr_constraint" => some (true, true)
  | "force_channels" => some (true, true)
  | "max_bandwidth" => some (true, true)
  | "signal" => some (true, true)
  | "application" => some (true, true)
  | "inband_fec" => some (true, true)
  | "packet_loss_perc" => some (true, true)
  | "dtx" => some (true, true)
  | "lsb_depth" => some (true, true)
  | "expert_frame_duration" => some (true, true)
  | "prediction_disabled" => some (true, true)
  | _ => none

/-- The accessor names the specification lists for the encoder facade. -/
def specAccessorNames : List String :=
  ["bitrate", "complexity", "vbr", "vbr_constraint", "force_channels",
   "max_bandwidth", "bandwidth", "signal", "application", "sample_rate",
   "lookahead", "inband_fec", "packet_loss_perc", "dtx", "lsb_depth",
   "last_packet_duration", "expert_frame_duration", "prediction_disabled"]

/-- Availability of a facade binding as a (getter, setter) pair. -/
def bindingAvailability (b : CtlBinding) : Bool × Bool :=
  (b.hasGetter, b.hasSetter)

/-- Whether an optional member name resolves in the given enum member list. -/
def memberResolves (members : List (String × Int)) : Option String → Bool
  | none => true
  | some n => (members.find? (fun p => p.1 == n)).isSome

/-! ## Module-level evaluation for base.py, encoder.py, decoder.py -/

/-- The global names bound at the top level of base.py (base.py 9-73): the
typing import, the ffi import, and the two classes. No name Enum is bound. -/
def baseModuleNames : List String := ["Any", "ffi", "ManagedState", "OpusCodec"]

/-- Python attribute lookup on the base module object. -/
def baseModuleAttr (name : String) : Option String :=
  if baseModuleNames.contains name then some name else none

/-- Evaluating the class statement class OpusApplicationType(base.Enum)
(encoder.py 21-25 and decoder.py 63-67) resolves the base class expression
base.Enum before the class is created; a missing attribute raises
AttributeError and aborts the surrounding module evaluation. -/
def opusApplicationTypeClassDef : Except PyExc Unit :=
  match baseModuleAttr ("Enum") with
  | some _ => .ok ()
  | none => .error (.attributeError ("Enum"))

/-- Top-level evaluation of encoder.py after its imports: the
OpusApplicationType class statement runs before the encoder class
statements, so its failure prevents the module from binding any of its
classes. On success the module would bind the listed names. -/
def encoder_module_import : Except PyExc (List String) := do
  let _ ← opusApplicationTypeClassDef
  return ["OpusApplicationType", "BaseOpusEncoder", "OpusEncoder", "FloatOpusEncoder"]

/-- Top-level evaluation of decoder.py after its imports: the OpusError
class statement (decoder.py 32-60) succeeds, then the OpusApplicationType
class statement fails as in encoder.py, aborting the module import before
any decoder class is bound. -/
def decoder_module_import : Except PyExc (List String) := do
  let _ ← opusApplicationTypeClassDef
  return ["OpusError", "OpusApplicationType", "BaseOpusDecoder", "OpusDecoder", "FloatOpusDecoder"]

/-! ## Claim theorems -/

/-- C1: the claim says a control set raises exactly when the native control
call returns a non-OK status and completes without raising on OK. The code
violates this: llinterface.encoder_ctl already raises on non-OK and returns
None, so ctl._set_int compares None against OK and raises OpusError(None)
precisely on the successful path. This theorem evaluates the embedded set
accessors at a native call returning OK (each raises) and at one returning
BAD_ARG (the error carries the code, raised by the llinterface layer). -/
theorem set_accessors_raise_even_on_ok_status :
    encoder_set_complexity (fun _ _ => OK) 5 = .error (.opusError Option.none) ∧
    encoder_set_bitrate (fun _ _ => OK) 64000 = .error (.opusError Option.none) ∧
    decoder_set_gain (fun _ _ => OK) 0 = .error (.opusError Option.none) ∧
    encoder_set_complexity (fun _ _ => OPUS_BAD_ARG) 5 =
      .error (.opusError (some OPUS_BAD_ARG)) :=
  ⟨rfl, rfl, rfl, rfl⟩

/-- C2: the claim says set(x) followed by get() returns x for every value the
native capability accepts. The code violates this for every field routed
through ctl._set_int: even when the native store accepts the value (status
OK, value stored), the set raises OpusError(None), so control flow never
reaches the get. The get accessor alone does return the stored value, and an
out-of-range set raises with the BAD_ARG code. -/
theorem complexity_roundtrip_broken :
    (nativeComplexityCtlSet ⟨0⟩ SET_COMPLEXITY_REQUEST 10).2 = OK ∧
    complexity_set_then_get ⟨0⟩ 0 = .error (.opusError Option.none) ∧
    complexity_set_then_get ⟨0⟩ 10 = .error (.opusError Option.none) ∧
    complexity_set_then_get ⟨0⟩ 11 = .error (.opusError (some OPUS_BAD_ARG)) ∧
    encoder_get_complexity (fun r => nativeComplexityCtlGet ⟨10⟩ r) = .ok 10 :=
  ⟨rfl, rfl, rfl, rfl, rfl⟩

/-- C9: reading the final_range, pitch or bandwidth accessor of an encoder
raises an attribute-lookup error for every native oracle, because the ctl
functions they delegate to reference the members GET_FINAL_RANGE, GET_PITCH
and GET_BANDWIDTH, which ctl.EncoderControlRequest does not define. -/
theorem encoder_range_pitch_bandwidth_attribute_error :
    (∀ g : Int → Int × Int,
      encoderFinalRangeProp g = .error (.attributeError ("GET_FINAL_RANGE"))) ∧
    (∀ g : Int → Int × Int,
      encoderPitchProp g = .error (.attributeError ("GET_PITCH"))) ∧
    (∀ g : Int → Int × Int,
      encoderBandwidthProp g = .error (.attributeError ("GET_BANDWIDTH"))) :=
  ⟨fun _ => rfl, fun _ => rfl, fun _ => rfl⟩

/-- C10: the base module binds no name Enum, so evaluating the
OpusApplicationType class statements of encoder.py and decoder.py raises
AttributeError and both module imports abort before any encoder or decoder
class is bound. -/
theorem application_type_base_enum_missing :
    baseModuleAttr ("Enum") = none ∧
    encoder_module_import = .error (.attributeError ("Enum")) ∧
    decoder_module_import = .error (.attributeError ("Enum")) :=
  ⟨rfl, rfl, rfl⟩

/-- A stereo decoder at 8 kHz, a failing configuration for the PLC element
count (min_frame_samples is 20 there). -/
def decStereo8k : DecoderModel := ⟨8000, 2⟩

/-- C3: decode_plc_fec raises ValueError before any native call when the
payload and the frame duration are both absent, and when useFec is true
without a frame duration (both for every native oracle, with an empty event
trace). But with a frame duration and no payload on a stereo decoder the
returned concealment frame has only the per-channel sample count: the slice
omits the channel factor, so 480 elements come back where the expected count
for the duration and the channel count is 960. -/
theorem decode_plc_fec_validation_and_short_concealment :
    (∀ (nr : Int → Bool → Int) (pcm : List Int) (fec : Bool),
      decode_plc_fec decStereo8k nr pcm none none fec =
        (.error (.valueError plcErrMsg), [])) ∧
    (∀ (nr : Int → Bool → Int) (pcm d : List Int),
      decode_plc_fec decStereo8k nr pcm (some d) none true =
        (.error (.valueError plcErrMsg), [])) ∧
    (decode_plc_fec decStereo8k (fun fs _ => fs) (List.replicate 5760 0)
        none (some 1) false).1 = .ok (List.replicate 20 0) ∧
    (List.replicate 20 (0 : Int)).length ≠
      (1 * min_frame_samples decStereo8k.freq * decStereo8k.channels).toNat :=
  ⟨fun _ _ _ => rfl, fun _ _ _ => rfl, rfl,
   by rw [List.length_replicate]; decide⟩

/-- C4: decode on a decoder with channel count c, when the native decode
primitive returns a non-negative per-channel sample count n (at most the
frame size PCM_BUFFER_SAMPLES it was given), returns exactly n times c PCM
elements taken from the start of the scratch buffer. -/
theorem decode_returns_samples_times_channels
    (dec : DecoderModel) (n : Int) (pcm : List Int)
    (h0 : 0 ≤ n) (h1 : n ≤ PCM_BUFFER_SAMPLES)
    (hc : dec.channels = 1 ∨ dec.channels = 2)
    (hl : pcm.length = (PCM_BUFFER_SAMPLES * dec.channels).toNat) :
    (decode dec n pcm).1 = .ok (pcm.take (n * dec.channels).toNat) ∧
    (pcm.take (n * dec.channels).toNat).length = (n * dec.channels).toNat := by
  have hnot : ¬ n < 0 := not_lt.mpr h0
  refine ⟨by simp [decode, hnot], ?_⟩
  rw [List.length_take, hl]
  simp only [PCM_BUFFER_SAMPLES] at h1 ⊢
  rcases hc with h | h <;> rw [h] <;> omega

/-- Witness for C4 at a stereo decoder, a full 20 ms frame of 960
per-channel samples and a zero scratch buffer. -/
theorem decode_returns_samples_times_channels_witness :
    (decode ⟨48000, 2⟩ 960 (List.replicate 5760 0)).1 =
      .ok ((List.replicate 5760 (0 : Int)).take ((960 : Int) * 2).toNat) ∧
    ((List.replicate 5760 (0 : Int)).take ((960 : Int) * 2).toNat).length =
      ((960 : Int) * 2).toNat :=
  decode_returns_samples_times_channels ⟨48000, 2⟩ 960 (List.replicate 5760 0)
    (by decide) (by decide) (Or.inr rfl) (by rw [List.length_replicate]; decide)

/-- C5: the claim says Encoder construction succeeds exactly on the
supported parameter sets. The validation side holds: each out-of-range
parameter raises the ValueError naming its field, for every native oracle,
before any state allocation. But a fully valid construction never succeeds:
_init_state passes self._mode.value, already a plain int, to
llinterface.encoder_init, which evaluates .value on it again and raises
AttributeError. -/
theorem encoder_construct_attribute_error :
    encoder_construct (fun _ => 1000) (fun _ _ _ => OK) 48000 2
      (PyVal.enumMember APPLICATION_VOIP) =
        .error (.attributeError valueAttrName) ∧
    (∀ (ns : Int → Int) (ni : Int → Int → Int → Int),
      encoder_construct ns ni 44100 2 (PyVal.enumMember APPLICATION_VOIP) =
        .error (.valueError freqErrMsg)) ∧
    (∀ (ns : Int → Int) (ni : Int → Int → Int → Int),
      encoder_construct ns ni 48000 3 (PyVal.enumMember APPLICATION_VOIP) =
        .error (.valueError channelsErrMsg)) ∧
    (∀ (ns : Int → Int) (ni : Int → Int → Int → Int),
      encoder_construct ns ni 48000 2 (PyVal.enumMember 1234) =
        .error (.valueError applicationErrMsg)) :=
  ⟨rfl, fun _ _ => rfl, fun _ _ => rfl, fun _ _ => rfl⟩

/-- C6: on a stereo encoder an odd total sample count raises ValueError with
an empty event trace (no lock, no native call), an even total is encoded
with per-channel frame size half the total, and a mono encoder passes the
raw input length as the frame size. -/
theorem stereo_odd_raises_mono_passthrough
    (native : Nat → Int) (buf pcm : List Int) :
    (pcm.length % 2 = 1 →
      stereo_encode native buf pcm = (.error (.valueError stereoErrMsg), [])) ∧
    (pcm.length % 2 = 0 →
      stereo_encode native buf pcm = do_encode native buf (pcm.length / 2)) ∧
    mono_encode native buf pcm = do_encode native buf pcm.length := by
  refine ⟨fun h => ?_, fun h => ?_, rfl⟩
  · simp [stereo_encode, h]
  · simp [stereo_encode, h]

def encWitnessNative : Nat → Int := fun _ => 3
def encWitnessBuf : List Int := [7, 7, 7, 7]

/-- Witness for C6 at a three-sample (odd) and a four-sample (even) stereo
input. -/
theorem stereo_odd_raises_mono_passthrough_witness :
    stereo_encode encWitnessNative encWitnessBuf [0, 0, 0] =
      (.error (.valueError stereoErrMsg), []) ∧
    stereo_encode encWitnessNative encWitnessBuf [0, 0, 0, 0] =
      do_encode encWitnessNative encWitnessBuf ([0, 0, 0, 0].length / 2) :=
  ⟨(stereo_odd_raises_mono_passthrough encWitnessNative encWitnessBuf
      [0, 0, 0]).1 (by decide),
   (stereo_odd_raises_mono_passthrough encWitnessNative encWitnessBuf
      [0, 0, 0, 0]).2.1 (by decide)⟩

/-- C7 counterexample: the claim asserts the bandwidth accessor is set-only
on the encoder facade, with no getter synthesized; but BaseOpusEncoder
defines a bandwidth getter property, so the facade availability differs from
the spec table at the field bandwidth. -/
theorem bandwidth_not_set_only :
    ¬ ((encoderFacadeAccessor ("bandwidth")).map bindingAvailability =
        specClaimedAvailability ("bandwidth")) := by decide

/-- The availability the amended C7 asserts: the spec table with the single
correction that bandwidth has both accessors in the facade. -/
def amendedAvailability (f : String) : Option (Bool × Bool) :=
  if f == "bandwidth" then some (true, true) else specClaimedAvailability f

/-- C7 amended: every listed accessor of the encoder facade is bound to
exactly one ControlRequest member name per direction; availability is the
spec table except that bandwidth also has a getter; every setter member and
every getter member resolves in ctl.EncoderControlRequest except the
bandwidth getter, whose member GET_BANDWIDTH the enum does not define. -/
theorem encoder_accessor_table_amended :
    (specAccessorNames.all (fun f =>
      (encoderFacadeAccessor f).map bindingAvailability ==
        amendedAvailability f)) = true ∧
    (specAccessorNames.all (fun f =>
      match encoderFacadeAccessor f with
      | some b =>
          memberResolves EncoderControlRequestMembers b.setterMember &&
            (f == "bandwidth" ||
              memberResolves EncoderControlRequestMembers b.getterMember)
      | none => false)) = true ∧
    enumMemberLookup EncoderControlRequestMembers ("GET_BANDWIDTH") =
      .error (.attributeError ("GET_BANDWIDTH")) :=
  ⟨rfl, rfl, rfl⟩

/-- C8: every operation trace of encode, decode and decode_plc_fec is one of
the three shapes (pre-lock validation exit, native-error exit, normal exit);
all shapes observe the lock discipline (scratch-buffer events only while
holding the lock, lock released at the end of every path, error path
included); and in every mutex-respecting interleaving of any two such
traces the scratch accesses of the two calls never interleave. -/
theorem operations_lock_discipline :
    (∀ (native : Nat → Int) (buf : List Int) (fs : Nat),
      (do_encode native buf fs).2 ∈ opTraceShapes) ∧
    (∀ (native : Nat → Int) (buf pcm : List Int),
      (stereo_encode native buf pcm).2 ∈ opTraceShapes) ∧
    (∀ (dec : DecoderModel) (n : Int) (pcm : List Int),
      (decode dec n pcm).2 ∈ opTraceShapes) ∧
    (∀ (dec : DecoderModel) (nr : Int → Bool → Int) (pcm : List Int)
      (data : Option (List Int)) (fd : Option Int) (fec : Bool),
      (decode_plc_fec dec nr pcm data fd fec).2 ∈ opTraceShapes) ∧
    (opTraceShapes.all wellLocked) = true ∧
    (opTraceShapes.all (fun t1 => opTraceShapes.all (fun t2 =>
      (interleavings t1 t2).all (fun s =>
        !mutexOk s || noConcurrentScratch s)))) = true := by
  refine ⟨?_, ?_, ?_, ?_, rfl, by decide⟩
  · intro native buf fs
    by_cases h : native fs < 0 <;> simp [do_encode, h, opTraceShapes]
  · intro native buf pcm
    by_cases hodd : pcm.length % 2 ≠ 0
    · simp [stereo_encode, hodd, opTraceShapes]
    · by_cases h : native (pcm.length / 2) < 0 <;>
        simp [stereo_encode, hodd, do_encode, h, opTraceShapes]
  · intro dec n pcm
    by_cases h : n < 0 <;> simp [decode, h, opTraceShapes]
  · intro dec nr pcm data fd fec
    rcases data with _ | d <;> rcases fd with _ | k <;> rcases fec with _ | _ <;>
      simp [decode_plc_fec, opTraceShapes] <;>
      split <;> simp

end PyOpus
